import Mathlib

/-!
Shallow embedding of `src/leetcode_assistant.py` (a LeetCode practice
tracker) and proofs about its review-scheduling, selection, session
recording and stats code.

Modelling conventions:
* Timestamps are natural numbers (seconds).  The Python code stores
  timestamps as strings in the fixed format `%Y-%m-%d %H:%M:%S` and
  converts with `strftime`/`strptime`, which are mutually inverse at
  second precision, so string round-trips are modelled as the identity
  and comparison after `strptime` as comparison of the numbers.
* Every call of `datetime.now()` in the Python source is an independent
  reading of the ambient wall clock; each such reading becomes an
  explicit parameter of the embedded function (`now`, `start_time`,
  `end_time`, `sched_now` ...).
* Python's insertion-ordered `dict` keyed by slug is modelled as
  `List (String × Problem)`: assignment to an existing key replaces the
  value in place, assignment to a fresh key appends.
* The float `minutes` field is modelled exactly: `round(x, 1)` rounds
  half-to-even at one decimal, so the stored value is an integer number
  of tenths of a minute, kept as `ℤ` (Python's `20.0` is `200` here).
* Python `str.lower` / `str.strip` are modelled character-wise for the
  ASCII data this program handles.
* Interactive prompting, printing and JSON persistence are I/O glue and
  are not part of the embedded state transformers.
-/

set_option autoImplicit false

namespace LeetcodeAssistant

/-- ASCII lowering of one character, as Python `str.lower` does on the
ASCII range. -/
def lowerChar (c : Char) : Char :=
  if 65 ≤ c.toNat ∧ c.toNat ≤ 90 then Char.ofNat (c.toNat + 32) else c

/-- Python `str.lower` on ASCII strings (structural, so it reduces in
the kernel, unlike `String.toLower`). -/
def lowerStr (s : String) : String :=
  ⟨s.data.map lowerChar⟩

/-- Python `str.strip`: drop whitespace from both ends. -/
def stripStr (s : String) : String :=
  ⟨((s.data.dropWhile Char.isWhitespace).reverse.dropWhile Char.isWhitespace).reverse⟩

/-- A problem record, mirroring the dict literal built in `add_problem`
(src/leetcode_assistant.py lines 68-78). -/
structure Problem where
  title : String
  slug : String
  url : String
  difficulty : String
  topics : List String
  attempts : Nat
  last_status : Option String
  last_practiced : Option Nat
  next_review : Option Nat
deriving DecidableEq, Repr

/-- A session log entry, mirroring the `session_record` dict built in
`start_practice_session` (lines 210-217).  `minutes` holds tenths of a
minute (`round(x, 1)` scaled by ten, an exact integer). -/
structure Session where
  problem_id : String
  start : Nat
  ending : Nat
  minutes : ℤ
  status : String
  notes : String
deriving DecidableEq, Repr

/-- The whole persisted store `{"problems": {...}, "sessions": [...]}`
(`load_data`, line 12). -/
structure Data where
  problems : List (String × Problem)
  sessions : List Session
deriving DecidableEq, Repr

/-- `data["problems"][k]` as a partial lookup: first entry with key `k`
(Python dicts have unique keys; a missing key raises `KeyError`,
modelled as `none`). -/
def dict_get (l : List (String × Problem)) (k : String) : Option Problem :=
  match l with
  | [] => none
  | kp :: rest => if kp.1 = k then some kp.2 else dict_get rest k

/-- Updating the value object held under an existing key `k` (in the
source the dict value is mutated in place, so the entry keeps its
position; entries with other keys are untouched). -/
def dict_set (l : List (String × Problem)) (k : String) (v : Problem) :
    List (String × Problem) :=
  match l with
  | [] => []
  | kp :: rest => (if kp.1 = k then (kp.1, v) else kp) :: dict_set rest k v

/-- `data["problems"][k] = v` (Python dict assignment): replace in
place if the key exists, otherwise append. -/
def dict_insert (l : List (String × Problem)) (k : String) (v : Problem) :
    List (String × Problem) :=
  if l.any (fun kp => kp.1 = k) then dict_set l k v else l ++ [(k, v)]

/-- `round((end_time - start_time).total_seconds() / 60, 1)` from lines
193 and 214, in tenths of a minute: for `s` seconds the exact value in
tenths is `s / 6`, and Python's `round` (half-to-even) of it is
computed from its floor `s.ediv 6` and remainder `s.emod 6` (the
fractional part `r / 6` is below one half iff `r < 3`, above iff
`3 < r`, and the tie `r = 3` goes to the even neighbour). -/
def minutes_tenths (s : ℤ) : ℤ :=
  let q := s / 6
  let r := s % 6
  if r < 3 then q
  else if 3 < r then q + 1
  else if q % 2 = 0 then q else q + 1

/-- `schedule_next_review` (lines 160-180).  In the source the function
reads `datetime.now()` itself and returns `(now + delta).strftime(...)`;
that clock reading is the explicit parameter `now` and the returned
timestamp is a number.  `status or ""` only guards against `None`,
which the `String` type excludes. -/
def schedule_next_review (status difficulty : String) (now : Nat) : Nat :=
  let status := lowerStr status
  let delta : Nat :=
    if status = "solved" then
      if difficulty = "easy" then 3 * 86400
      else if difficulty = "medium" then 2 * 86400
      else 1 * 86400  -- hard
    else 1 * 86400
  now + delta

/-- The fresh record built by `add_problem` (lines 68-78). -/
def new_problem (title slug url difficulty : String) (topics : List String) :
    Problem :=
  { title := title, slug := slug, url := url, difficulty := difficulty,
    topics := topics, attempts := 0, last_status := none,
    last_practiced := none, next_review := none }

/-- The catalog upsert of `add_problem` (lines 63-80): the slug is the
key, and an existing record is overwritten whole. -/
def add_problem (data : Data) (title slug url difficulty : String)
    (topics : List String) : Data :=
  { data with
      problems := dict_insert data.problems slug
        (new_problem title slug url difficulty topics) }

/-- The first filter of `filter_problems` (line 103):
`if diff_filter and p["difficulty"] != diff_filter: continue`.
An empty string is falsy in Python, hence the `d = ""` escape. -/
def diff_ok : Option String → Problem → Bool
  | none, _ => true
  | some d, p => decide (d = "") || decide (p.difficulty = d)

/-- The topic filter of `filter_problems` (lines 105-107):
`if topic_filter not in [t.lower() for t in p["topics"]]: continue`. -/
def topic_ok : Option String → Problem → Bool
  | none, _ => true
  | some t, p => decide (t = "") || decide (t ∈ p.topics.map lowerStr)

/-- The due filter of `filter_problems` (lines 108-116): a problem with
no `next_review` is due; otherwise it is kept unless
`next_review > now`. -/
def due_ok (now : Nat) (only_due : Bool) (p : Problem) : Bool :=
  if only_due then
    match p.next_review with
    | none => true
    | some nr => decide (nr ≤ now)
  else true

/-- The body of the `filter_problems` loop: a problem survives all the
`continue` checks. -/
def keep_problem (now : Nat) (diff_filter topic_filter : Option String)
    (only_due : Bool) (p : Problem) : Bool :=
  diff_ok diff_filter p && topic_ok topic_filter p && due_ok now only_due p

/-- `filter_problems` (lines 98-118): the ids of the problems, in
catalog order, that pass all filters.  `now` is the clock reading of
line 100. -/
def filter_problems (data : Data) (diff_filter topic_filter : Option String)
    (only_due : Bool) (now : Nat) : List String :=
  (data.problems.filter
    (fun kp => keep_problem now diff_filter topic_filter only_due kp.2)).map
    Prod.fst

/-- The topic-filter normalisation of `choose_problem` (lines 137-139):
the raw input is stripped and lowercased, and an empty result means "no
topic filter". -/
def topic_filter_of_input (s : String) : Option String :=
  let t := lowerStr (stripStr s)
  if t = "" then none else some t

/-- The one failure of session recording: the slug is not a key of the
catalog (`data["problems"][pid]` raises `KeyError`). -/
inductive RecError where
  | unknownProblem
deriving DecidableEq, Repr

deriving instance DecidableEq for Except

/-- The recording core of `start_practice_session` (lines 188-218),
after the problem id has been chosen and the outcome entered.  The
three wall-clock readings are explicit: `start_time` (line 188),
`end_time` (line 192), and `sched_now`, the reading taken inside
`schedule_next_review` (line 169) after the user has typed the outcome
and notes.  The slug lookup of line 204 happens before any mutation, so
on a missing slug the store is returned untouched together with the
error. -/
def record_session (data : Data) (pid : String)
    (start_time end_time sched_now : Nat) (status notes : String) :
    Except RecError Session × Data :=
  match dict_get data.problems pid with
  | none => (Except.error RecError.unknownProblem, data)
  | some problem =>
      let minutes := minutes_tenths ((end_time : ℤ) - (start_time : ℤ))
      let problem' : Problem :=
        { problem with
            attempts := problem.attempts + 1
            last_status := some status
            last_practiced := some end_time
            next_review :=
              some (schedule_next_review status problem.difficulty sched_now) }
      let sess : Session :=
        { problem_id := pid, start := start_time, ending := end_time,
          minutes := minutes, status := status, notes := notes }
      (Except.ok sess,
       { problems := dict_set data.problems pid problem'
         sessions := data.sessions ++ [sess] })

/-- The plain data behind the report printed by `stats_overview`
(lines 229-259). -/
structure Stats where
  total_problems : Nat
  total_sessions : Nat
  easy_count : Nat
  medium_count : Nat
  hard_count : Nat
  solved_count : Nat
  recent_sessions : List Session
deriving DecidableEq, Repr

/-- One step of the loop of lines 240-245: bump the bucket of the
problem's difficulty when it is one of the three (`if d in
by_difficulty`), and bump `solved_count` when `last_status ==
"solved"`. -/
def stats_fold (acc : Nat × Nat × Nat × Nat) (p : Problem) :
    Nat × Nat × Nat × Nat :=
  let e := acc.1
  let m := acc.2.1
  let h := acc.2.2.1
  let s := acc.2.2.2
  let counts :=
    if p.difficulty = "easy" then (e + 1, m, h)
    else if p.difficulty = "medium" then (e, m + 1, h)
    else if p.difficulty = "hard" then (e, m, h + 1)
    else (e, m, h)
  let s := if p.last_status = some "solved" then s + 1 else s
  (counts.1, counts.2.1, counts.2.2, s)

/-- `stats_overview` (lines 229-259) as a pure read: the function only
iterates over the store and returns the numbers it prints.
`sessions[-5:]` keeps the last five log entries in chronological
order. -/
def stats_overview (data : Data) : Stats :=
  let counts := data.problems.foldl (fun acc kp => stats_fold acc kp.2)
    (0, 0, 0, 0)
  { total_problems := data.problems.length
    total_sessions := data.sessions.length
    easy_count := counts.1
    medium_count := counts.2.1
    hard_count := counts.2.2.1
    solved_count := counts.2.2.2
    recent_sessions := data.sessions.drop (data.sessions.length - 5) }

/-- Modelled from the spec (§4.4): `solved_at_least_once` is described
there as the number of problems "solved at least once", i.e. with at
least one logged session whose outcome is `solved`; the source has no
function computing this (its loop counts `last_status == "solved"`
instead), so the spec's wording is embedded here for comparison. -/
def solved_at_least_once_spec (data : Data) : Nat :=
  (data.problems.filter (fun kp =>
    data.sessions.any
      (fun s => decide (s.problem_id = kp.1) && decide (s.status = "solved")))).length

/-- The data-model invariant of spec §3 on one problem record. -/
def problem_inv (p : Problem) : Prop :=
  (p.attempts = 0 ↔ p.last_status = none) ∧
  (p.last_status = none ↔ p.last_practiced = none) ∧
  (p.next_review = none ↔ p.last_practiced = none)

instance (p : Problem) : Decidable (problem_inv p) := by
  unfold problem_inv
  infer_instance

/-- A problem whose topic set contains exactly `"array"`. -/
def arrayProblem : Problem :=
  { title := "Array problem", slug := "p-array", url := "u",
    difficulty := "medium", topics := ["array"], attempts := 0,
    last_status := none, last_practiced := none, next_review := none }

/-- A problem whose topic set contains exactly `"arrays"`. -/
def arraysProblem : Problem :=
  { title := "Arrays problem", slug := "p-arrays", url := "u",
    difficulty := "medium", topics := ["arrays"], attempts := 0,
    last_status := none, last_practiced := none, next_review := none }

/-- A catalog holding the `"array"` and `"arrays"` problems. -/
def dataTopics : Data :=
  { problems := [("p-array", arrayProblem), ("p-arrays", arraysProblem)],
    sessions := [] }

/-- The spec's running example problem (`two-sum`, easy, never
practiced). -/
def twoSum : Problem :=
  { title := "Two Sum", slug := "two-sum",
    url := "https://leetcode.com/problems/two-sum/", difficulty := "easy",
    topics := ["array", "hash-table"], attempts := 0, last_status := none,
    last_practiced := none, next_review := none }

/-- A store holding just the fresh `two-sum` problem and no sessions. -/
def dataTwoSum : Data :=
  { problems := [("two-sum", twoSum)], sessions := [] }

/-! ## Helper lemmas -/

theorem schedule_next_review_shift (status difficulty : String) (now : Nat) :
    schedule_next_review status difficulty now =
      now + schedule_next_review status difficulty 0 := by
  by_cases h1 : lowerStr status = "solved" <;>
    by_cases h2 : difficulty = "easy" <;>
      by_cases h3 : difficulty = "medium" <;>
        simp [schedule_next_review, h1, h2, h3]

theorem dict_get_set_eq {l : List (String × Problem)} {k : String}
    {p : Problem} (v : Problem) (h : dict_get l k = some p) :
    dict_get (dict_set l k v) k = some v := by
  induction l with
  | nil => simp [dict_get] at h
  | cons kp rest ih =>
      by_cases hk : kp.1 = k
      · simp [dict_get, dict_set, hk]
      · simp only [dict_get, dict_set, if_neg hk] at h ⊢
        exact ih h

theorem dict_get_set_ne {l : List (String × Problem)} {k k' : String}
    (v : Problem) (h : k' ≠ k) :
    dict_get (dict_set l k v) k' = dict_get l k' := by
  induction l with
  | nil => simp [dict_set]
  | cons kp rest ih =>
      simp only [dict_set]
      by_cases hk : kp.1 = k
      · have hne : ¬ k = k' := fun hh => h hh.symm
        simp [dict_get, hk, hne, ih]
      · simp [dict_get, hk, ih]

/-- The entries of the catalog whose key differs from `k`. -/
def other_key (k : String) (kp : String × Problem) : Bool :=
  decide (kp.1 ≠ k)

theorem filter_ne_dict_set (l : List (String × Problem)) (k : String)
    (v : Problem) :
    (dict_set l k v).filter (other_key k) = l.filter (other_key k) := by
  induction l with
  | nil => rfl
  | cons kp rest ih =>
      simp only [dict_set]
      by_cases hk : kp.1 = k
      · rw [if_pos hk, List.filter_cons, List.filter_cons]
        have h1 : other_key k (kp.1, v) = false := by simp [other_key, hk]
        have h2 : other_key k kp = false := by simp [other_key, hk]
        rw [h1, h2]
        simpa using ih
      · rw [if_neg hk, List.filter_cons, List.filter_cons, ih]

theorem mem_dict_set {kp : String × Problem} {l : List (String × Problem)}
    {k : String} {v : Problem} (h : kp ∈ dict_set l k v) :
    kp.2 = v ∨ kp ∈ l := by
  induction l with
  | nil => simp [dict_set] at h
  | cons hd rest ih =>
      simp only [dict_set, List.mem_cons] at h
      rcases h with h | h
      · by_cases hk : hd.1 = k
        · rw [if_pos hk] at h
          subst h
          exact Or.inl rfl
        · rw [if_neg hk] at h
          subst h
          exact Or.inr (List.mem_cons_self _ _)
      · rcases ih h with h' | h'
        · exact Or.inl h'
        · exact Or.inr (List.mem_cons_of_mem hd h')

theorem record_session_ok (data : Data) (pid : String) (p : Problem)
    (st en sc : Nat) (status notes : String)
    (h : dict_get data.problems pid = some p) :
    record_session data pid st en sc status notes =
      (Except.ok { problem_id := pid, start := st, ending := en,
                   minutes := minutes_tenths ((en : ℤ) - (st : ℤ)),
                   status := status, notes := notes },
       { problems := dict_set data.problems pid
           { p with attempts := p.attempts + 1,
                    last_status := some status,
                    last_practiced := some en,
                    next_review :=
                      some (schedule_next_review status p.difficulty sc) }
         sessions := data.sessions ++
           [{ problem_id := pid, start := st, ending := en,
              minutes := minutes_tenths ((en : ℤ) - (st : ℤ)),
              status := status, notes := notes }] }) := by
  simp [record_session, h]

theorem minutes_tenths_neg {s : ℤ} (h : s ≤ -4) : minutes_tenths s < 0 := by
  simp only [minutes_tenths]
  split
  · omega
  · split
    · omega
    · split <;> omega

/-! ## Claims -/

/-- C1: For every outcome in {solved, partial, unsolved} and every
difficulty in {easy, medium, hard}, the scheduler's result minus the
current time equals the fixed table (solved: 3/2/1 days for
easy/medium/hard; partial and unsolved: 1 day for every difficulty),
and the result is always `now` plus a fixed delta, so the total
function never fails. -/
theorem schedule_next_review_table :
    ∀ now : Nat,
      (schedule_next_review "solved" "easy" now - now = 3 * 86400 ∧
       schedule_next_review "solved" "medium" now - now = 2 * 86400 ∧
       schedule_next_review "solved" "hard" now - now = 1 * 86400) ∧
      (schedule_next_review "partial" "easy" now - now = 1 * 86400 ∧
       schedule_next_review "partial" "medium" now - now = 1 * 86400 ∧
       schedule_next_review "partial" "hard" now - now = 1 * 86400) ∧
      (schedule_next_review "unsolved" "easy" now - now = 1 * 86400 ∧
       schedule_next_review "unsolved" "medium" now - now = 1 * 86400 ∧
       schedule_next_review "unsolved" "hard" now - now = 1 * 86400) ∧
      (∀ status difficulty : String,
        schedule_next_review status difficulty now =
          now + schedule_next_review status difficulty 0) := by
  intro now
  have h1 : schedule_next_review "solved" "easy" now = now + 3 * 86400 := by rfl
  have h2 : schedule_next_review "solved" "medium" now = now + 2 * 86400 := by rfl
  have h3 : schedule_next_review "solved" "hard" now = now + 1 * 86400 := by rfl
  have h4 : schedule_next_review "partial" "easy" now = now + 1 * 86400 := by rfl
  have h5 : schedule_next_review "partial" "medium" now = now + 1 * 86400 := by rfl
  have h6 : schedule_next_review "partial" "hard" now = now + 1 * 86400 := by rfl
  have h7 : schedule_next_review "unsolved" "easy" now = now + 1 * 86400 := by rfl
  have h8 : schedule_next_review "unsolved" "medium" now = now + 1 * 86400 := by rfl
  have h9 : schedule_next_review "unsolved" "hard" now = now + 1 * 86400 := by rfl
  exact ⟨⟨by omega, by omega, by omega⟩, ⟨by omega, by omega, by omega⟩,
    ⟨by omega, by omega, by omega⟩,
    fun status difficulty => schedule_next_review_shift status difficulty now⟩

/-- C2 counterexample: recording a solved session on easy `two-sum`
with `end_time = 1200` while the scheduler's own clock reading is
`1260` stores `next_review = 1260 + 3` days, not `end + 3` days
(`schedule_next_review` reads `datetime.now()` itself at line 169,
after the outcome prompt, so its reading is later than `end_time`). -/
theorem record_session_next_review_not_from_end :
    (dict_get (record_session dataTwoSum "two-sum" 0 1200 1260 "solved"
        "").2.problems "two-sum").bind Problem.next_review =
      some (schedule_next_review "solved" "easy" 1260) ∧
    (dict_get (record_session dataTwoSum "two-sum" 0 1200 1260 "solved"
        "").2.problems "two-sum").bind Problem.next_review ≠
      some (schedule_next_review "solved" "easy" 1200) := by
  constructor <;> decide

/-- C2 (amended): a session recorded on an existing slug appends a
session with `minutes = round((end - start) in minutes, 1 decimal)` (in
tenths), and updates the problem with attempts incremented by 1,
`last_status = status`, `last_practiced = end`, and `next_review =
computeNextReview(status, difficulty, sched_now)` where `sched_now` is
the clock reading taken inside the scheduler after the outcome is
entered — not the session's `end` timestamp.  When that reading equals
`end` (as in the spec's example), `next_review` is `end` plus the table
delta. -/
theorem record_session_effects
    (data : Data) (pid : String) (p : Problem)
    (start_time end_time sched_now : Nat) (status notes : String)
    (h : dict_get data.problems pid = some p) :
    (record_session data pid start_time end_time sched_now status notes).1 =
      Except.ok { problem_id := pid, start := start_time, ending := end_time,
                  minutes := minutes_tenths ((end_time : ℤ) - (start_time : ℤ)),
                  status := status, notes := notes } ∧
    dict_get (record_session data pid start_time end_time sched_now status
        notes).2.problems pid =
      some { p with
               attempts := p.attempts + 1,
               last_status := some status,
               last_practiced := some end_time,
               next_review :=
                 some (schedule_next_review status p.difficulty sched_now) } := by
  rw [record_session_ok data pid p start_time end_time sched_now status notes h]
  exact ⟨rfl, dict_get_set_eq _ h⟩

/-- C2 witness: on the catalog holding only the fresh easy `two-sum`,
recording a solved session with `start = 0`, `end = 1200` (20 minutes)
and the scheduler's reading equal to `end` stores 200 tenths of a
minute (`20.0`), one attempt, `last_status = "solved"` and
`next_review = end + 3` days (`260400`), matching the spec's worked
example. -/
theorem record_session_effects_witness :
    (record_session dataTwoSum "two-sum" 0 1200 1200 "solved" "").1 =
      Except.ok { problem_id := "two-sum", start := 0, ending := 1200,
                  minutes := 200, status := "solved", notes := "" } ∧
    dict_get (record_session dataTwoSum "two-sum" 0 1200 1200 "solved"
        "").2.problems "two-sum" =
      some { twoSum with
               attempts := 1,
               last_status := some "solved",
               last_practiced := some 1200,
               next_review := some 260400 } := by
  obtain ⟨h1, h2⟩ := record_session_effects dataTwoSum "two-sum" twoSum
    0 1200 1200 "solved" "" (by decide)
  exact ⟨h1.trans (by decide), h2.trans (by decide)⟩

/-- C5 counterexample: recording a session whose `end` (0) precedes its
`start` (240 seconds later) stores `minutes = -40` tenths (`-4.0`
minutes), a negative value, not the claimed clamped `0`: lines 192-194
compute the raw difference and never clamp. -/
theorem record_session_minutes_not_clamped :
    (record_session dataTwoSum "two-sum" 240 0 300 "unsolved"
        "").2.sessions.map Session.minutes = [-40] ∧
    (-40 : ℤ) < 0 := by
  constructor <;> decide

/-- C5 (amended): when `end < start` the recording still does not fail,
but the stored duration is the plain rounding of the negative
difference `(end - start) / 60` to one decimal — there is no clamping,
so whenever the skew is at least 4 seconds the stored minutes value is
strictly negative. -/
theorem record_session_clock_skew_no_clamp
    (data : Data) (pid : String) (p : Problem) (st en sc : Nat)
    (status notes : String)
    (h : dict_get data.problems pid = some p) (_hlt : en < st) :
    (record_session data pid st en sc status notes).1 =
      Except.ok { problem_id := pid, start := st, ending := en,
                  minutes := minutes_tenths ((en : ℤ) - (st : ℤ)),
                  status := status, notes := notes } ∧
    ((en : ℤ) - (st : ℤ) ≤ -4 → minutes_tenths ((en : ℤ) - (st : ℤ)) < 0) := by
  constructor
  · rw [record_session_ok data pid p st en sc status notes h]
  · exact fun h4 => minutes_tenths_neg h4

/-- C5 witness: with `start = 240`, `end = 0` the session is recorded
(`Except.ok`) with `minutes = -40` tenths, and the skew bound shows the
value is negative. -/
theorem record_session_clock_skew_no_clamp_witness :
    (record_session dataTwoSum "two-sum" 240 0 300 "unsolved" "").1 =
      Except.ok { problem_id := "two-sum", start := 240, ending := 0,
                  minutes := -40, status := "unsolved", notes := "" } ∧
    minutes_tenths ((0 : ℤ) - (240 : ℤ)) < 0 := by
  obtain ⟨h1, h2⟩ := record_session_clock_skew_no_clamp dataTwoSum "two-sum"
    twoSum 240 0 300 "unsolved" "" (by decide) (by decide)
  exact ⟨h1.trans (by decide), h2 (by decide)⟩

/-- C6: recording a session on a slug absent from the catalog fails
with `UnknownProblem` (the `KeyError` of line 204 happens before any
mutation) and returns the store exactly unchanged: no problem record
and no session log entry is touched. -/
theorem record_session_unknown_problem
    (data : Data) (pid : String) (st en sc : Nat) (status notes : String)
    (h : dict_get data.problems pid = none) :
    record_session data pid st en sc status notes =
      (Except.error RecError.unknownProblem, data) := by
  simp [record_session, h]

/-- C6 witness: `three-sum` is not in the one-problem catalog, so
recording fails with `UnknownProblem` and the store comes back
unchanged. -/
theorem record_session_unknown_problem_witness :
    record_session dataTwoSum "three-sum" 0 1200 1200 "solved" "" =
      (Except.error RecError.unknownProblem, dataTwoSum) :=
  record_session_unknown_problem dataTwoSum "three-sum" 0 1200 1200 "solved" ""
    (by decide)

/-- A store reached from the fresh catalog by recording a solved and
then an unsolved session on `two-sum`: the problem has been solved at
least once, but its `last_status` is `"unsolved"`. -/
def dataSolvedThenUnsolved : Data :=
  (record_session
    ((record_session dataTwoSum "two-sum" 0 600 600 "solved" "").2)
    "two-sum" 1000 2000 2000 "unsolved" "").2

/-- C3: `total_problems` and `total_sessions` always equal the sizes of
the catalog and the log, but on a store whose one problem was solved
and then unsolved, the figure the code prints as "Solved at least
once" is `0` while the number of problems solved in at least one
session is `1`: the loop at line 244 counts `last_status == "solved"`,
contradicting its own label and the spec's `solved_at_least_once`. -/
theorem stats_solved_at_least_once_bug :
    (∀ data : Data,
        (stats_overview data).total_problems = data.problems.length ∧
        (stats_overview data).total_sessions = data.sessions.length) ∧
    solved_at_least_once_spec dataSolvedThenUnsolved = 1 ∧
    (stats_overview dataSolvedThenUnsolved).solved_count = 0 := by
  exact ⟨fun data => ⟨rfl, rfl⟩, by decide, by decide⟩

/-! Helper lemmas for the selector claims. -/

theorem lowerStr_eq_empty {s : String} : lowerStr s = "" ↔ s = "" := by
  constructor
  · intro h
    have h' : s.data.map lowerChar = [] := congrArg String.data h
    rw [List.map_eq_nil_iff] at h'
    exact String.ext h'
  · intro h
    subst h
    rfl

theorem dict_key_unique {l : List (String × Problem)} {pid : String}
    {p : Problem} (hnd : (l.map Prod.fst).Nodup) (hp : (pid, p) ∈ l)
    {kp : String × Problem} (hk : kp ∈ l) (he : kp.1 = pid) :
    kp = (pid, p) :=
  List.inj_on_of_nodup_map hnd hk hp he

theorem mem_filter_problems_iff {data : Data} {df tf : Option String}
    {od : Bool} {now : Nat} {pid : String} {p : Problem}
    (hnd : (data.problems.map Prod.fst).Nodup)
    (hmem : (pid, p) ∈ data.problems) :
    pid ∈ filter_problems data df tf od now ↔
      keep_problem now df tf od p = true := by
  unfold filter_problems
  rw [List.mem_map]
  constructor
  · rintro ⟨kp, hkp, hfst⟩
    rw [List.mem_filter] at hkp
    have heq : kp = (pid, p) := dict_key_unique hnd hmem hkp.1 hfst
    rw [heq] at hkp
    exact hkp.2
  · intro hkeep
    exact ⟨(pid, p), List.mem_filter.mpr ⟨hmem, hkeep⟩, rfl⟩

/-- C4: with only a topic filter, a problem of the catalog is selected
exactly when the (stripped, non-empty) filter string is a
case-insensitive exact member of its topic set — lowercase membership,
not substring matching. -/
theorem topic_filter_case_insensitive_exact
    (data : Data) (now : Nat) (tfInput pid : String) (p : Problem)
    (hnd : (data.problems.map Prod.fst).Nodup)
    (hmem : (pid, p) ∈ data.problems)
    (hstrip : stripStr tfInput = tfInput) (hne : tfInput ≠ "") :
    pid ∈ filter_problems data none (topic_filter_of_input tfInput) false now ↔
      ∃ t ∈ p.topics, lowerStr t = lowerStr tfInput := by
  rw [mem_filter_problems_iff hnd hmem]
  have hlne : lowerStr tfInput ≠ "" := fun hh => hne (lowerStr_eq_empty.mp hh)
  have htf : topic_filter_of_input tfInput = some (lowerStr tfInput) := by
    unfold topic_filter_of_input
    rw [hstrip, if_neg hlne]
  rw [htf]
  unfold keep_problem diff_ok topic_ok due_ok
  simp [hlne, List.mem_map, eq_comm]

/-- C4 witness: the filter input `"Array"` selects the problem with
topic `"array"` (case-insensitive exact membership) and does not select
the one whose only topic is `"arrays"` (no substring matching). -/
theorem topic_filter_case_insensitive_exact_witness :
    "p-array" ∈
      filter_problems dataTopics none (topic_filter_of_input "Array") false 0 ∧
    "p-arrays" ∉
      filter_problems dataTopics none (topic_filter_of_input "Array") false 0 := by
  constructor
  · exact (topic_filter_case_insensitive_exact dataTopics 0 "Array" "p-array"
      arrayProblem (by decide) (by decide) (by decide) (by decide)).mpr
      ⟨"array", by decide, by decide⟩
  · intro hmem
    have h := (topic_filter_case_insensitive_exact dataTopics 0 "Array"
      "p-arrays" arraysProblem (by decide) (by decide) (by decide)
      (by decide)).mp hmem
    revert h
    decide

/-- C7: the due filter keeps a problem exactly when its `next_review`
is unset or not after `now` (so a never-practiced problem passing the
other filters is always selected), and with no filters at all the
selector returns exactly the full catalog's slugs in order. -/
theorem filter_problems_due_rule :
    (∀ (now : Nat) (p : Problem),
        due_ok now true p = true ↔
          (p.next_review = none ∨ ∃ nr, p.next_review = some nr ∧ nr ≤ now)) ∧
    (∀ (data : Data) (now : Nat),
        filter_problems data none none false now =
          data.problems.map Prod.fst) ∧
    (∀ (data : Data) (now : Nat) (df tf : Option String) (pid : String)
        (p : Problem), (pid, p) ∈ data.problems →
        diff_ok df p = true → topic_ok tf p = true →
        p.next_review = none →
        pid ∈ filter_problems data df tf true now) := by
  refine ⟨?_, ?_, ?_⟩
  · intro now p
    cases hnr : p.next_review with
    | none => simp [due_ok, hnr]
    | some nr => simp [due_ok, hnr]
  · intro data now
    unfold filter_problems
    have hall : ∀ kp ∈ data.problems,
        keep_problem now none none false kp.2 = true := fun kp _ => rfl
    rw [List.filter_eq_self.mpr hall]
  · intro data now df tf pid p hmem hdiff htopic hnr
    unfold filter_problems
    refine List.mem_map.mpr ⟨(pid, p), List.mem_filter.mpr ⟨hmem, ?_⟩, rfl⟩
    unfold keep_problem
    rw [hdiff, htopic]
    simp [due_ok, hnr]

/-- C7 witness: the never-practiced `two-sum` passes a difficulty and
topic filter with `only_due` on, at any current time. -/
theorem filter_problems_due_rule_witness :
    "two-sum" ∈
      filter_problems dataTwoSum (some "easy") (some "array") true 999 :=
  filter_problems_due_rule.2.2 dataTwoSum 999 (some "easy") (some "array")
    "two-sum" twoSum (by decide) (by decide) (by decide) (by decide)

/-- C8: the freshly created record satisfies the data-model invariant
(`attempts == 0` iff `last_status` null iff `last_practiced` null, and
`next_review` set iff `last_practiced` set), and both catalog upsert
and session recording preserve it for every record of the catalog. -/
theorem problem_inv_preserved :
    (∀ title slug url difficulty topics,
        problem_inv (new_problem title slug url difficulty topics)) ∧
    (∀ (data : Data) (title slug url difficulty : String)
        (topics : List String),
        (∀ kp ∈ data.problems, problem_inv kp.2) →
        ∀ kp ∈ (add_problem data title slug url difficulty topics).problems,
          problem_inv kp.2) ∧
    (∀ (data : Data) (pid : String) (st en sc : Nat) (status notes : String),
        (∀ kp ∈ data.problems, problem_inv kp.2) →
        ∀ kp ∈ (record_session data pid st en sc status notes).2.problems,
          problem_inv kp.2) := by
  refine ⟨?_, ?_, ?_⟩
  · intro t s u d tp
    simp [problem_inv, new_problem]
  · intro data t s u d tp hinv kp hkp
    unfold add_problem dict_insert at hkp
    split at hkp
    · rcases mem_dict_set hkp with h | h
      · rw [h]
        simp [problem_inv, new_problem]
      · exact hinv kp h
    · rw [List.mem_append] at hkp
      rcases hkp with h | h
      · exact hinv kp h
      · rw [List.mem_singleton] at h
        rw [h]
        simp [problem_inv, new_problem]
  · intro data pid st en sc status notes hinv kp hkp
    cases hdg : dict_get data.problems pid with
    | none =>
        simp only [record_session, hdg] at hkp
        exact hinv kp hkp
    | some p =>
        rw [record_session_ok data pid p st en sc status notes hdg] at hkp
        rcases mem_dict_set hkp with h | h
        · rw [h]
          simp [problem_inv]
        · exact hinv kp h

/-- C8 witness: the fresh `two-sum` record satisfies the invariant, and
after recording a solved session on the one-problem catalog every
record still satisfies it. -/
theorem problem_inv_preserved_witness :
    problem_inv (new_problem "Two Sum" "two-sum" "u" "easy" ["array"]) ∧
    ∀ kp ∈ (record_session dataTwoSum "two-sum" 0 1200 1200 "solved"
        "").2.problems, problem_inv kp.2 :=
  ⟨problem_inv_preserved.1 "Two Sum" "two-sum" "u" "easy" ["array"],
   problem_inv_preserved.2.2 dataTwoSum "two-sum" 0 1200 1200 "solved" ""
     (by decide)⟩

/-- C9: a successful recording on slug `pid` appends exactly one record
to the session log and leaves every problem entry with a different key
untouched, both under lookup and entry-for-entry. -/
theorem record_session_frame
    (data : Data) (pid : String) (p : Problem) (st en sc : Nat)
    (status notes : String) (h : dict_get data.problems pid = some p) :
    (∃ s, (record_session data pid st en sc status notes).1 = Except.ok s ∧
        (record_session data pid st en sc status notes).2.sessions =
          data.sessions ++ [s]) ∧
    (∀ pid', pid' ≠ pid →
        dict_get (record_session data pid st en sc status
          notes).2.problems pid' = dict_get data.problems pid') ∧
    (record_session data pid st en sc status notes).2.problems.filter
        (other_key pid) = data.problems.filter (other_key pid) := by
  rw [record_session_ok data pid p st en sc status notes h]
  refine ⟨⟨_, rfl, rfl⟩, ?_, ?_⟩
  · intro pid' hne
    exact dict_get_set_ne _ hne
  · exact filter_ne_dict_set _ _ _

/-- C9 witness: recording on `p-array` leaves the record of `p-arrays`
unchanged. -/
theorem record_session_frame_witness :
    dict_get (record_session dataTopics "p-array" 0 600 600 "solved"
      "").2.problems "p-arrays" = dict_get dataTopics.problems "p-arrays" :=
  (record_session_frame dataTopics "p-array" arrayProblem 0 600 600 "solved" ""
    (by decide)).2.1 "p-arrays" (by decide)

/-- C10: the stats summary is a pure read — `stats_overview` is a
function of the store alone and returns only the summary, so two calls
with no intervening mutation return identical results — and on the
empty store every total and difficulty count is zero, no problem
counts as solved, and the recent-sessions list is empty. -/
theorem stats_overview_pure_empty :
    stats_overview { problems := [], sessions := [] } =
      { total_problems := 0, total_sessions := 0, easy_count := 0,
        medium_count := 0, hard_count := 0, solved_count := 0,
        recent_sessions := [] } ∧
    ∀ data : Data, stats_overview data = stats_overview data :=
  ⟨rfl, fun _ => rfl⟩

end LeetcodeAssistant
